import Mathlib

set_option maxHeartbeats 1000000

/-!
Shallow embedding of the `AdvancedAIDetectionEngine` scoring engine from
`src/utils/analyzer.ts`.

Modelling conventions:
- JS numbers are exact rationals in the extractor layer (only field
  arithmetic and comparisons occur there) and real numbers in the
  aggregation layer, where `Math.exp` and `Math.sqrt` occur.
- `Math.round` is `⌊x + 1/2⌋` (JS rounds half toward positive infinity).
- The ambient clock value `Date.now()` read at the start of `analyzeFile`
  is an explicit parameter `now` (epoch milliseconds); the locale-dependent
  `getHours()` / `getDay()` of the file timestamp are explicit parameters
  `hour` and `day`; the `Math.random()` draws consumed by the extractors
  are the fields of an explicit `RandomDraws` record.
- JS regular-expression tests on filenames are embedded as executable
  character-list predicates; each carries a comment with the regex it
  translates.
-/

/-- The JS `Math.round` on real numbers: half rounds up. -/
noncomputable def jround (x : ℝ) : ℤ := ⌊x + 1/2⌋

/-- The JS `Math.round` on rational numbers (indicator scores). -/
def jroundQ (q : ℚ) : ℤ := ⌊q + 1/2⌋

/-- The `Math.max(0, Math.min(100, x))` clamp applied at every extractor boundary. -/
def clamp100 (x : ℚ) : ℚ := max 0 (min 100 x)

/-- External input of one analysis: mirrors the `File` fields the engine reads
(`name`, `type`, `size`, `lastModified`). -/
structure FileDesc where
  name : String
  mimeType : String
  size : ℚ
  lastModified : ℚ

/-- One fixed behaviour of the random source: the `Math.random()` values the
extractors would draw (aspect/color/texture in the image sub-analysis,
frameRate/motion/audio in the video sub-analysis, batch in the temporal
extractor). -/
structure RandomDraws where
  aspect : ℚ
  color : ℚ
  texture : ℚ
  frameRate : ℚ
  motion : ℚ
  audio : ℚ
  batch : ℚ

/-- One entry of the result's indicator list. -/
structure Indicator where
  name : String
  score : ℤ
  description : String

/-- The record returned by `analyzeFile`. -/
structure AnalysisResult where
  aiProbability : ℤ
  confidence : ℤ
  processingTime : ℚ
  modelVersion : String
  indicators : List Indicator
  explanation : String

/-! ## String machinery (JS string and regex operations) -/

/-- The JS `toLowerCase` (ASCII). -/
def strLower (s : String) : String := String.mk (s.data.map Char.toLower)

/-- Does the first list start the second one? -/
def startsList : List Char → List Char → Bool
  | [], _ => true
  | _ :: _, [] => false
  | a :: as, b :: bs => if a = b then startsList as bs else false

/-- The JS `String.prototype.startsWith`. -/
def strStarts (p s : String) : Bool := startsList p.data s.data

/-- Does the first list occur anywhere inside the second one? -/
def occursList : List Char → List Char → Bool
  | p, [] => startsList p []
  | p, c :: cs => startsList p (c :: cs) || occursList p cs

/-- The JS `String.prototype.includes`. -/
def occursIn (p s : String) : Bool := occursList p.data s.data

/-- Does some suffix of the list satisfy the front-matcher `f`?
(unanchored regex search). -/
def anySuffix (f : List Char → Bool) : List Char → Bool
  | [] => f []
  | c :: cs => f (c :: cs) || anySuffix f cs

/-- Consume the literal `lit` from the front, returning the rest. -/
def matchLit : List Char → List Char → Option (List Char)
  | [], s => some s
  | _ :: _, [] => none
  | a :: as, b :: bs => if a = b then matchLit as bs else none

/-- Consume an optional `[_-]` separator (the regex `[_-]?`; deterministic here
because every continuation in the source patterns starts with a non-separator). -/
def dropSep1 : List Char → List Char
  | [] => []
  | c :: cs => if c = '_' ∨ c = '-' then cs else c :: cs

/-- Consume exactly `n` decimal digits (the regex `\d{n}`). -/
def takeDigits : ℕ → List Char → Option (List Char)
  | 0, s => some s
  | _ + 1, [] => none
  | n + 1, c :: cs => if c.isDigit then takeDigits n cs else none

/-- Is the head a decimal digit? (suffices for a trailing `\d+`). -/
def headDigit : List Char → Bool
  | [] => false
  | c :: _ => c.isDigit

/-- Match `lit` at the front then hand the rest to `k`. -/
def litThen (lit : String) (k : List Char → Bool) (s : List Char) : Bool :=
  match matchLit lit.data s with
  | some r => k r
  | none => false

/-- Match `[_-]?` then the literal `lit`. -/
def sepThenLit (lit : String) (r : List Char) : Bool :=
  (matchLit lit.data (dropSep1 r)).isSome

/-- Front match for `(?:stable[_-]?diffusion|sd[_-]?\d+|midjourney|mj[_-]?\d+|dall[_-]?e|openai)/i`
(applied to the already lowercased filename). -/
def frontPat1 (s : List Char) : Bool :=
  litThen "stable" (sepThenLit "diffusion") s
    || litThen "sd" (fun r => headDigit (dropSep1 r)) s
    || litThen "midjourney" (fun _ => true) s
    || litThen "mj" (fun r => headDigit (dropSep1 r)) s
    || litThen "dall" (sepThenLit "e") s
    || litThen "openai" (fun _ => true) s

/-- Pattern 1 of `SUSPICIOUS_FILENAME_PATTERNS`. -/
def pat1 (s : List Char) : Bool := anySuffix frontPat1 s

/-- Front match for `(?:generated|synthetic|ai[_-]?(?:created|made|gen)|machine[_-]?(?:made|gen))/i`. -/
def frontPat2 (s : List Char) : Bool :=
  litThen "generated" (fun _ => true) s
    || litThen "synthetic" (fun _ => true) s
    || litThen "ai" (fun r => sepThenLit "created" r || sepThenLit "made" r || sepThenLit "gen" r) s
    || litThen "machine" (fun r => sepThenLit "made" r || sepThenLit "gen" r) s

/-- Pattern 2 of `SUSPICIOUS_FILENAME_PATTERNS`. -/
def pat2 (s : List Char) : Bool := anySuffix frontPat2 s

/-- Pattern 3: `(?:prompt|seed|cfg|steps|sampler|guidance|denoise)/i` — plain substrings. -/
def pat3 (s : List Char) : Bool :=
  occursList "prompt".data s || occursList "seed".data s || occursList "cfg".data s
    || occursList "steps".data s || occursList "sampler".data s
    || occursList "guidance".data s || occursList "denoise".data s

/-- Pattern 4: `(?:upscaled?|enhanced|super[_-]?res|img2img|txt2img)/i`
(the optional trailing `d` of `upscaled?` is irrelevant for an unanchored test). -/
def pat4 (s : List Char) : Bool :=
  occursList "upscale".data s || occursList "enhanced".data s
    || anySuffix (litThen "super" (sepThenLit "res")) s
    || occursList "img2img".data s || occursList "txt2img".data s

/-- One character of the class `[a-f0-9]` under the `/i` flag. -/
def isHexC (c : Char) : Bool :=
  c.isDigit || (if ('a' ≤ c ∧ c ≤ 'f') ∨ ('A' ≤ c ∧ c ≤ 'F') then true else false)

/-- The tail `[_-]?\d*$` of pattern 5. -/
def tailPat5 (r : List Char) : Bool :=
  r.all Char.isDigit
    || (match r with
        | c :: cs => if c = '_' ∨ c = '-' then cs.all Char.isDigit else false
        | [] => false)

/-- Pattern 5: `^[a-f0-9]{8,32}[_-]?\d*$/i` — anchored, with an explicit choice of
the hex-run length (digits are also hex, so the run length is a genuine choice point). -/
def pat5 (s : List Char) : Bool :=
  (List.range 25).any fun i =>
    let k := i + 8
    if k ≤ s.length then ((s.take k).all isHexC && tailPat5 (s.drop k)) else false

/-- Front match for pattern 6 `\d{4}[_-]?\d{2}[_-]?\d{2}[_-]?\d{6,}`
(each `[_-]?` is deterministic: a digit must follow). -/
def frontPat6 (s : List Char) : Bool :=
  match takeDigits 4 s with
  | none => false
  | some r1 =>
    match takeDigits 2 (dropSep1 r1) with
    | none => false
    | some r2 =>
      match takeDigits 2 (dropSep1 r2) with
      | none => false
      | some r3 => (takeDigits 6 (dropSep1 r3)).isSome

/-- Pattern 6 of `SUSPICIOUS_FILENAME_PATTERNS`. -/
def pat6 (s : List Char) : Bool := anySuffix frontPat6 s

/-- Pattern 7: `(?:concept[_-]?art|digital[_-]?art|fantasy|surreal|hyperrealistic)/i`. -/
def pat7 (s : List Char) : Bool :=
  anySuffix (litThen "concept" (sepThenLit "art")) s
    || anySuffix (litThen "digital" (sepThenLit "art")) s
    || occursList "fantasy".data s || occursList "surreal".data s
    || occursList "hyperrealistic".data s

/-- The ordered `SUSPICIOUS_FILENAME_PATTERNS` list of the source. -/
def SUSPICIOUS_FILENAME_PATTERNS : List (List Char → Bool) :=
  [pat1, pat2, pat3, pat4, pat5, pat6, pat7]

/-- The pattern loop of `advancedFilenameAnalysis`: walk the ordered pattern
list, add 20 for the first match and `break`. -/
def patternScore : List (List Char → Bool) → List Char → ℚ
  | [], _ => 0
  | p :: ps, s => if p s then 20 else patternScore ps s

/-- The `AI_GENERATION_SIGNATURES` dictionary of the source. -/
def AI_GENERATION_SIGNATURES : List String :=
  ["stable-diffusion", "midjourney", "dall-e", "firefly", "leonardo", "runway",
   "synthesia", "deepfake", "faceswap", "artbreeder", "nightcafe", "craiyon",
   "imagen", "parti", "phenaki", "make-a-video", "gen-2", "pika", "sora",
   "generated", "synthetic", "artificial", "ai-created", "machine-generated",
   "neural", "diffusion", "gan", "vae", "transformer"]

/-- Split on the separator class of `filename.split(/[._-]/)` (empty tokens kept,
as in JS). -/
def splitSeps : List Char → List (List Char)
  | [] => [[]]
  | c :: cs =>
    if c = '.' ∨ c = '_' ∨ c = '-' then [] :: splitSeps cs
    else
      match splitSeps cs with
      | t :: ts => (c :: t) :: ts
      | [] => [[c]]

/-- Front match for `(?:seed|cfg|steps|scale|strength)[\s_-]*\d+/i`
(whitespace class restricted to the ASCII whitespace that can occur in names). -/
def frontParam (s : List Char) : Bool :=
  ["seed", "cfg", "steps", "scale", "strength"].any fun w =>
    match matchLit w.data s with
    | some r =>
      headDigit (r.dropWhile fun c =>
        if c = ' ' ∨ c = '\t' ∨ c = '\n' ∨ c = '\r' ∨ c = '_' ∨ c = '-' then true else false)
    | none => false

/-- The AI-parameter test `(?:seed|cfg|steps|scale|strength)[\s_-]*\d+/i`. -/
def hasParamPattern (s : List Char) : Bool := anySuffix frontParam s

/-- The JS `filename.replace(/\.[^.]+$/, '')`: strip a final dot-extension when
there is one with at least one character after the dot. -/
def stripDotExt (s : List Char) : List Char :=
  let after := s.reverse.takeWhile fun c => if c = '.' then false else true
  if after.length = 0 ∨ after.length = s.length then s
  else s.take (s.length - after.length - 1)

/-- The generic-name test `^(?:image|photo|picture|video|clip)\d*$/i`
(applied to the lowercased, extension-stripped filename). -/
def genericName (t : List Char) : Bool :=
  ["image", "photo", "picture", "video", "clip"].any fun w =>
    match matchLit w.data t with
    | some r => r.all Char.isDigit
    | none => false

/-- One character of `[A-Z]`. -/
def isUpperAZ (c : Char) : Bool := if 'A' ≤ c ∧ c ≤ 'Z' then true else false

/-- The professional-naming test `^[A-Z]{2,}_\d{4}_\d{2}_\d{2}` on the original
(unlowercased) file name; the greedy uppercase run is maximal, which agrees with
the regex because `_` and digits are not uppercase letters. -/
def profMatch (s : List Char) : Bool :=
  let ups := s.takeWhile isUpperAZ
  if 2 ≤ ups.length then
    match matchLit ['_'] (s.drop ups.length) with
    | some r1 =>
      match takeDigits 4 r1 with
      | some r2 =>
        match matchLit ['_'] r2 with
        | some r3 =>
          match takeDigits 2 r3 with
          | some r4 =>
            match matchLit ['_'] r4 with
            | some r5 => (takeDigits 2 r5).isSome
            | none => false
          | none => false
        | none => false
      | none => false
    | none => false
  else false

/-- The `file.name.split('.').pop()?.toLowerCase()` extension computation:
characters after the last dot (the whole name when there is no dot), lowercased. -/
def extOf (name : String) : String :=
  strLower (String.mk (name.data.foldl (fun acc c => if c = '.' then [] else acc ++ [c]) []))

/-! ## The five signal extractors (exact rational arithmetic) -/

/-- The age-bucket recency bonus of `deepMetadataAnalysis`
(<1h, <24h, <1week, <1month, older). -/
def ageBucket (ageInHours : ℚ) : ℚ :=
  if ageInHours < 1 then 35
  else if ageInHours < 24 then 25
  else if ageInHours < 168 then 15
  else if ageInHours < 720 then 5
  else -10

/-- The media-type size-bucket adjustment of `deepMetadataAnalysis`. -/
def metaSizeAdj (mimeType : String) (sizeInMB : ℚ) : ℚ :=
  if strStarts "image/" mimeType then
    (if sizeInMB < 3/10 then 30
     else if sizeInMB < 1 then 20
     else if sizeInMB < 3 then 10
     else if 15 < sizeInMB then -20
     else if 8 < sizeInMB then -10
     else 0)
    + (if 4/5 ≤ sizeInMB ∧ sizeInMB ≤ 5/2 then 15 else 0)
  else if strStarts "video/" mimeType then
    if sizeInMB < 5 then 40
    else if sizeInMB < 25 then 25
    else if sizeInMB < 100 then 10
    else if 500 < sizeInMB then -30
    else if 200 < sizeInMB then -15
    else 0
  else 0

/-- The exact-MIME adjustment of `deepMetadataAnalysis`. -/
def metaTypeAdj (mimeType : String) : ℚ :=
  if mimeType = "image/png" then 20
  else if mimeType = "image/webp" then 25
  else if mimeType = "image/jpeg" then -5
  else if mimeType = "video/mp4" then 15
  else 0

/-- Embedding of `deepMetadataAnalysis`: base 10, recency bonus by age bucket,
media-type size buckets, exact MIME bonus, clamped to [0,100]. `now` is the
`Date.now()` value; `file.lastModified || now` makes a zero timestamp fall back
to `now`. -/
def deepMetadataAnalysis (f : FileDesc) (now : ℚ) : ℚ :=
  let fileDate := if f.lastModified = 0 then now else f.lastModified
  let ageInHours := (now - fileDate) / 3600000
  clamp100 (10 + ageBucket ageInHours
    + metaSizeAdj f.mimeType (f.size / 1048576) + metaTypeAdj f.mimeType)

/-- The signature-dictionary loop of `advancedFilenameAnalysis`: each matched
signature adds `25 + 2 * signature.length`. -/
def signatureBonus (filename : String) : ℚ :=
  (AI_GENERATION_SIGNATURES.map fun sig =>
    if occursIn sig filename then 25 + 2 * (sig.length : ℚ) else 0).sum

/-- The `signatureMatches` counter of the same loop. -/
def signatureMatches (filename : String) : ℕ :=
  (AI_GENERATION_SIGNATURES.filter fun sig => occursIn sig filename).length

/-- Test `hashLikeParts.length > 0`: some separator-token is a hex run of length ≥ 6
(the regex `^[a-f0-9]{6,}$/i` on each token). -/
def hasHashToken (fd : List Char) : Bool :=
  if 0 < ((splitSeps fd).filter fun part =>
      if 6 ≤ part.length then part.all isHexC else false).length then true else false

/-- Test `numericParts.length > 0`: some separator-token is a digit run of length ≥ 4
(the regex `^\d{4,}$` on each token). -/
def hasNumToken (fd : List Char) : Bool :=
  if 0 < ((splitSeps fd).filter fun part =>
      if 4 ≤ part.length then part.all Char.isDigit else false).length then true else false

/-- Embedding of `advancedFilenameAnalysis`: base 15, signature dictionary with
length-weighted bonuses, multi-match bonus, first-match-only pattern loop,
token analysis, parameter pattern, length and naming-convention adjustments,
clamped to [0,100]. -/
def advancedFilenameAnalysis (f : FileDesc) : ℚ :=
  let filename := strLower f.name
  let fd := filename.data
  clamp100 (15 + signatureBonus filename
    + (if 1 < signatureMatches filename then 20 else 0)
    + patternScore SUSPICIOUS_FILENAME_PATTERNS fd
    + (if hasHashToken fd then 25 else 0)
    + (if hasNumToken fd then 15 else 0)
    + (if hasParamPattern fd then 30 else 0)
    + (if 60 < filename.length then 20 else if filename.length < 8 then 10 else 0)
    + (if genericName (stripDotExt fd) then -15 else 0)
    + (if profMatch f.name.data then -20 else 0))

/-- Embedding of `fileStructureAnalysis`: base 20, extension/MIME format
branches, compression-efficiency adjustment, clamped to [0,100]. -/
def fileStructureAnalysis (f : FileDesc) : ℚ :=
  let extension := extOf f.name
  let sizeInKB := f.size / 1024
  let sizeInMB := f.size / 1048576
  let fmtAdj : ℚ :=
    if strStarts "image/" f.mimeType then
      if extension = "png" ∧ f.mimeType = "image/png" then
        25 + (if sizeInKB < 500 then 15 else if 5000 < sizeInKB then -10 else 0)
      else if extension = "webp" then 30
      else if extension = "jpg" ∨ extension = "jpeg" then
        -5 + (if sizeInKB < 200 then 20 else 0)
      else 0
    else if strStarts "video/" f.mimeType then
      if extension = "mp4" then 20
      else if extension = "webm" then 25
      else if extension = "mov" then -10
      else if extension = "avi" then -15
      else 0
    else 0
  let effAdj : ℚ :=
    if strStarts "image/" f.mimeType then
      if sizeInMB < 1/2 then 20 else if 10 < sizeInMB then -15 else 0
    else 0
  clamp100 (20 + fmtAdj + effAdj)

/-- Embedding of `simulateAdvancedImageAnalysis` (unclamped sub-score; the
three `Math.random()` draws are the aspect/color/texture fields). -/
def simulateAdvancedImageAnalysis (f : FileDesc) (r : RandomDraws) : ℚ :=
  let sizeInMB := f.size / 1048576
  (if sizeInMB < 1 then 25 else if 8 < sizeInMB then -20 else 0)
    + (if r.aspect < 1/4 then 30 else if r.aspect < 1/2 then 15
       else if r.aspect < 3/4 then 5 else 0)
    + (if r.color < 3/10 then 20 else 0)
    + (if r.texture < 2/5 then 25 else 0)
    + (if f.mimeType = "image/png" then 15
       else if f.mimeType = "image/webp" then 20 else 0)

/-- Embedding of `simulateAdvancedVideoAnalysis` (unclamped sub-score; the
three `Math.random()` draws are the frameRate/motion/audio fields). -/
def simulateAdvancedVideoAnalysis (f : FileDesc) (r : RandomDraws) : ℚ :=
  let sizeInMB := f.size / 1048576
  (if sizeInMB < 10 then 35 else if sizeInMB < 50 then 20
   else if 300 < sizeInMB then -25 else 0)
    + (if r.frameRate < 3/10 then 25 else if r.frameRate < 3/5 then 10 else 0)
    + (if r.motion < 2/5 then 30 else 0)
    + (if r.audio < 1/5 then 20 else if r.audio < 1/2 then 15 else 0)

/-- Embedding of `contentPatternAnalysis`: base 25 plus the media-type-specific
simulated sub-analysis, clamped to [0,100]. -/
def contentPatternAnalysis (f : FileDesc) (r : RandomDraws) : ℚ :=
  clamp100 (25 +
    (if strStarts "image/" f.mimeType then simulateAdvancedImageAnalysis f r
     else if strStarts "video/" f.mimeType then simulateAdvancedVideoAnalysis f r
     else 0))

/-- Embedding of `temporalAnalysis`: base 20, hour-of-day band, weekend bonus,
random batch-creation bonus, clamped to [0,100]. `hour` and `day` are
`getHours()` / `getDay()` of the (fallback-adjusted) file timestamp. -/
def temporalAnalysis (hour day : ℕ) (r : RandomDraws) : ℚ :=
  clamp100 (20
    + (if 22 ≤ hour ∨ hour ≤ 6 then 15
       else if 9 ≤ hour ∧ hour ≤ 17 then -5 else 0)
    + (if day = 0 ∨ day = 6 then 10 else 0)
    + (if r.batch < 3/10 then 20 else 0))

/-! ## Aggregation layer (real arithmetic: `Math.exp`, `Math.sqrt`) -/

/-- The weighted raw score of `analyzeFile`:
`metadata*0.25 + filename*0.20 + structure*0.20 + content*0.25 + temporal*0.10`. -/
noncomputable def rawScore (m fn st ct tp : ℝ) : ℝ :=
  m * 0.25 + fn * 0.20 + st * 0.20 + ct * 0.25 + tp * 0.10

/-- Embedding of `calculateConsistency`: one minus population standard
deviation over 50, floored at 0. -/
noncomputable def calculateConsistency (m fn st ct tp : ℝ) : ℝ :=
  let mean := (m + fn + st + ct + tp) / 5
  let variance := ((m - mean) ^ 2 + (fn - mean) ^ 2 + (st - mean) ^ 2
    + (ct - mean) ^ 2 + (tp - mean) ^ 2) / 5
  let standardDeviation := Real.sqrt variance
  max 0 (1 - standardDeviation / 50)

/-- Embedding of `applyNonLinearScaling`: logistic transform centred at 50
plus ten times the consistency, clamped to [5,95]. -/
noncomputable def applyNonLinearScaling (raw consistency : ℝ) : ℝ :=
  max 5 (min 95 (100 / (1 + Real.exp (-0.1 * (raw - 50))) + consistency * 10))

/-- Embedding of `calculateAdvancedConfidence`: base `60 + consistency*30`,
range adjustment, extreme-average bonus, `Math.round` of the [65,98] clamp. -/
noncomputable def calculateAdvancedConfidence (m fn st ct tp consistency : ℝ) : ℤ :=
  let base := 60 + consistency * 30
  let maxScore := max m (max fn (max st (max ct tp)))
  let minScore := min m (min fn (min st (min ct tp)))
  let range := maxScore - minScore
  let c1 := base + (if range < 20 then 15 else if range < 40 then 10
    else if 60 < range then -10 else 0)
  let avgScore := (m + fn + st + ct + tp) / 5
  let c2 := c1 + (if 80 < avgScore ∨ avgScore < 20 then 10 else 0)
  jround (max 65 (min 98 c2))

/-! ## Indicator and explanation generation -/

/-- Embedding of `generateDetailedIndicators`: a fixed 6-entry list for
`image/*` inputs and a fixed 5-entry list otherwise, with scores rounded from
the extractor outputs (two entries average two extractor outputs). -/
def generateDetailedIndicators (f : FileDesc) (m fn st ct tp : ℚ) : List Indicator :=
  if strStarts "image/" f.mimeType then
    [⟨"Deep Metadata Analysis", jroundQ m,
      "Advanced file creation patterns, timestamps, and metadata signatures"⟩,
     ⟨"Filename Intelligence", jroundQ fn,
      "AI tool signatures, parameter patterns, and naming conventions"⟩,
     ⟨"Structural Forensics", jroundQ st,
      "File format analysis, compression patterns, and encoding signatures"⟩,
     ⟨"Content Pattern Recognition", jroundQ ct,
      "Pixel analysis, color distribution, and visual consistency patterns"⟩,
     ⟨"Temporal Behavioral Analysis", jroundQ tp,
      "Creation time patterns and usage behavior analysis"⟩,
     ⟨"Compression Artifact Detection", jroundQ ((st + ct) / 2),
      "AI-specific compression signatures and quality patterns"⟩]
  else
    [⟨"Video Temporal Analysis", jroundQ ct,
      "Frame consistency, motion patterns, and temporal coherence"⟩,
     ⟨"Encoding Forensics", jroundQ st,
      "Video codec analysis, bitrate patterns, and compression signatures"⟩,
     ⟨"Metadata Intelligence", jroundQ m,
      "Creation metadata, file properties, and timestamp analysis"⟩,
     ⟨"Quality Metrics Analysis", jroundQ ((fn + ct) / 2),
      "Resolution patterns, quality consistency, and artifact detection"⟩,
     ⟨"Behavioral Pattern Analysis", jroundQ tp,
      "Creation timing, usage patterns, and batch detection"⟩]

/-- The confidence-level word ladder of `generateAdvancedExplanation`. -/
def confidenceWord (confidence : ℤ) : String :=
  if 85 < confidence then "very high"
  else if 75 < confidence then "high"
  else if 65 < confidence then "moderate"
  else "low"

/-- The `indicators.map(i => i.name.toLowerCase()).join(', ')` interpolation. -/
def joinNames (l : List Indicator) : String :=
  String.intercalate ", " (l.map fun i => strLower i.name)

/-- Embedding of `generateAdvancedExplanation`: one of five probability-band
templates, interpolating the confidence word and the high- or low-scoring
indicator names. -/
def generateAdvancedExplanation (aiProbability confidence : ℤ)
    (indicators : List Indicator) : String :=
  let highScoreIndicators := indicators.filter fun i => 65 < i.score
  let lowScoreIndicators := indicators.filter fun i => i.score < 35
  let confidenceLevel := confidenceWord confidence
  if 80 ≤ aiProbability then
    "Our advanced analysis indicates with " ++ confidenceLevel
      ++ " confidence that this content is very likely AI-generated. Multiple sophisticated indicators strongly suggest synthetic origin, including "
      ++ joinNames highScoreIndicators
      ++ ". The file exhibits characteristic patterns consistent with current AI generation technologies, including specific metadata signatures, structural anomalies, and content patterns typical of machine-generated media."
  else if 65 ≤ aiProbability then
    "Analysis suggests this content is likely AI-generated with " ++ confidenceLevel
      ++ " confidence. Key indicators (" ++ joinNames highScoreIndicators
      ++ ") point toward synthetic creation, though some characteristics remain ambiguous. This could indicate sophisticated AI tools, post-processing techniques, or hybrid creation workflows combining AI and human elements."
  else if 35 ≤ aiProbability then
    "Mixed analysis results with " ++ confidenceLevel
      ++ " confidence suggest uncertain origin. While some indicators point toward AI generation, others suggest human creation. This ambiguity could result from advanced AI tools that closely mimic human creation patterns, extensive post-processing, or legitimate content that shares characteristics with AI-generated media."
  else if 20 ≤ aiProbability then
    "Analysis indicates this content is likely human-created with " ++ confidenceLevel
      ++ " confidence. Most indicators (" ++ joinNames lowScoreIndicators
      ++ ") show patterns consistent with traditional content creation methods. However, the possibility of very sophisticated AI generation cannot be completely ruled out given the rapid advancement of AI technologies."
  else
    "High confidence analysis strongly suggests this content is human-created. All major indicators demonstrate characteristics typical of authentic, non-synthetic media. The file structure, metadata patterns, and content analysis align with traditional creation workflows and lack the distinctive signatures commonly found in current AI-generated content. Confidence level: "
      ++ confidenceLevel ++ "."

/-! ## Engine facade -/

/-- Embedding of `analyzeFile`. `now` is the `Date.now()` reading, `hour`/`day`
the locale clock fields of the file timestamp, `r` the random-source behaviour,
and `elapsed` the measured wall-clock duration (`processingTime`). The returned
`aiProbability` is the outer `[0,100]` clamp of the rounded scaled score; the
explanation is built from the pre-clamp rounded value, as in the source. -/
noncomputable def analyzeFile (f : FileDesc) (now : ℚ) (hour day : ℕ)
    (r : RandomDraws) (elapsed : ℚ) : AnalysisResult :=
  let m := deepMetadataAnalysis f now
  let fn := advancedFilenameAnalysis f
  let st := fileStructureAnalysis f
  let ct := contentPatternAnalysis f r
  let tp := temporalAnalysis hour day r
  let consistencyFactor := calculateConsistency (m : ℝ) (fn : ℝ) (st : ℝ) (ct : ℝ) (tp : ℝ)
  let aiProbability :=
    jround (applyNonLinearScaling (rawScore (m : ℝ) (fn : ℝ) (st : ℝ) (ct : ℝ) (tp : ℝ))
      consistencyFactor)
  let confidence :=
    calculateAdvancedConfidence (m : ℝ) (fn : ℝ) (st : ℝ) (ct : ℝ) (tp : ℝ) consistencyFactor
  let indicators := generateDetailedIndicators f m fn st ct tp
  { aiProbability := max 0 (min 100 aiProbability)
    confidence := confidence
    processingTime := elapsed
    modelVersion := "v4.1.0-enhanced"
    indicators := indicators
    explanation := generateAdvancedExplanation aiProbability confidence indicators }

/-! ## Spec-side aggregator (for the refinement claim C2)

Modelled from the spec: "compute the population standard deviation of the
extractor outputs; consistency = `max(0, 1 - stddev/50)`"; "apply a logistic
transform `100 / (1 + exp(-0.1 * (rawScore - 50)))` centered at 50, then add
`consistency * 10` as an adjustment, then clamp to [5,95]", with rawScore the
fixed weighted sum (metadata 0.25, filename 0.20, structure 0.20,
content 0.25, temporal 0.10). -/

/-- The aggregation formula exactly as the spec words it. -/
noncomputable def specAggregate (m fn st ct tp : ℝ) : ℝ :=
  let raw := 0.25 * m + 0.20 * fn + 0.20 * st + 0.25 * ct + 0.10 * tp
  let mean := (m + fn + st + ct + tp) / 5
  let stddev := Real.sqrt (((m - mean) ^ 2 + (fn - mean) ^ 2 + (st - mean) ^ 2
    + (ct - mean) ^ 2 + (tp - mean) ^ 2) / 5)
  let consistency := max 0 (1 - stddev / 50)
  min 95 (max 5 (100 / (1 + Real.exp (-0.1 * (raw - 50))) + 10 * consistency))

/-! ## Helper lemmas -/

theorem clamp100_nonneg (x : ℚ) : 0 ≤ clamp100 x := le_max_left 0 _

theorem clamp100_le_100 (x : ℚ) : clamp100 x ≤ 100 :=
  max_le (by norm_num) (min_le_left 100 x)

theorem clamp100_mono {x y : ℚ} (h : x ≤ y) : clamp100 x ≤ clamp100 y :=
  max_le_max le_rfl (min_le_min le_rfl h)

theorem clamp100_le_of {x c : ℚ} (h0 : 0 ≤ c) (h : x ≤ c) : clamp100 x ≤ c :=
  max_le h0 (le_trans (min_le_right 100 x) h)

theorem le_jround {z : ℤ} {x : ℝ} (h : (z : ℝ) ≤ x + 1/2) : z ≤ jround x :=
  Int.le_floor.mpr h

theorem jround_lt {x : ℝ} {z : ℤ} (h : x + 1/2 < (z : ℝ)) : jround x < z :=
  Int.floor_lt.mpr h

theorem jroundQ_bounds {q : ℚ} (h0 : 0 ≤ q) (h1 : q ≤ 100) :
    0 ≤ jroundQ q ∧ jroundQ q ≤ 100 := by
  constructor
  · exact Int.le_floor.mpr (by push_cast; linarith)
  · have : jroundQ q < 101 := Int.floor_lt.mpr (by push_cast; linarith)
    omega

theorem consistency_nonneg (m fn st ct tp : ℝ) :
    0 ≤ calculateConsistency m fn st ct tp := le_max_left 0 _

theorem consistency_le_one (m fn st ct tp : ℝ) :
    calculateConsistency m fn st ct tp ≤ 1 := by
  refine max_le (by norm_num) ?_
  have h := Real.sqrt_nonneg (((m - (m + fn + st + ct + tp) / 5) ^ 2
    + (fn - (m + fn + st + ct + tp) / 5) ^ 2 + (st - (m + fn + st + ct + tp) / 5) ^ 2
    + (ct - (m + fn + st + ct + tp) / 5) ^ 2 + (tp - (m + fn + st + ct + tp) / 5) ^ 2) / 5)
  linarith

theorem logistic_mono {a b : ℝ} (h : a ≤ b) :
    100 / (1 + Real.exp (-0.1 * (a - 50))) ≤ 100 / (1 + Real.exp (-0.1 * (b - 50))) := by
  have hb : (0 : ℝ) < 1 + Real.exp (-0.1 * (b - 50)) := by positivity
  have hexp : Real.exp (-0.1 * (b - 50)) ≤ Real.exp (-0.1 * (a - 50)) :=
    Real.exp_le_exp.mpr (by nlinarith)
  gcongr

theorem scaling_le {raw consistency c : ℝ} (h5 : 5 ≤ c)
    (h : 100 / (1 + Real.exp (-0.1 * (raw - 50))) + consistency * 10 ≤ c) :
    applyNonLinearScaling raw consistency ≤ c :=
  max_le h5 (le_trans (min_le_right 95 _) h)

theorem le_scaling {raw consistency c : ℝ} (h95 : c ≤ 95)
    (h : c ≤ 100 / (1 + Real.exp (-0.1 * (raw - 50))) + consistency * 10) :
    c ≤ applyNonLinearScaling raw consistency :=
  le_trans (le_min h95 h) (le_max_right 5 _)

theorem sqrt_le_of_sq {a b : ℝ} (hb : 0 ≤ b) (h : a ≤ b ^ 2) : Real.sqrt a ≤ b := by
  calc Real.sqrt a ≤ Real.sqrt (b ^ 2) := Real.sqrt_le_sqrt h
  _ = b := Real.sqrt_sq hb

theorem le_sqrt_of_sq {a b : ℝ} (ha : 0 ≤ a) (h : a ^ 2 ≤ b) : a ≤ Real.sqrt b := by
  have hb : 0 ≤ b := le_trans (by positivity) h
  calc a = Real.sqrt (a ^ 2) := (Real.sqrt_sq ha).symm
  _ ≤ Real.sqrt b := Real.sqrt_le_sqrt h

theorem exp_two_lb : (7.389 : ℝ) ≤ Real.exp 2 := by
  have h1 : (2.7182818283 : ℝ) < Real.exp 1 := Real.exp_one_gt_d9
  have h2 : Real.exp 2 = Real.exp 1 * Real.exp 1 := by
    rw [← Real.exp_add]; norm_num
  nlinarith [Real.exp_pos 1]

theorem exp_two_ub : Real.exp 2 ≤ (7.3890561 : ℝ) := by
  have h1 : Real.exp 1 < 2.7182818286 := Real.exp_one_lt_d9
  have h2 : Real.exp 2 = Real.exp 1 * Real.exp 1 := by
    rw [← Real.exp_add]; norm_num
  nlinarith [Real.exp_pos 1]

theorem exp_0p2_ub : Real.exp 0.2 ≤ (1.25 : ℝ) := by
  have h1 : (-0.2 : ℝ) + 1 ≤ Real.exp (-0.2) := Real.add_one_le_exp (-0.2)
  have h2 : Real.exp 0.2 * Real.exp (-0.2) = 1 := by
    rw [← Real.exp_add]; norm_num [Real.exp_zero]
  nlinarith [Real.exp_pos (0.2 : ℝ), Real.exp_pos (-0.2 : ℝ)]

theorem exp_2p2_ub : Real.exp 2.2 ≤ (9.236321 : ℝ) := by
  have h2 : Real.exp 2.2 = Real.exp 2 * Real.exp 0.2 := by
    rw [← Real.exp_add]; norm_num
  nlinarith [Real.exp_pos (2 : ℝ), Real.exp_pos (0.2 : ℝ), exp_two_ub, exp_0p2_ub]

theorem exp_2p15_lb : (7.389 : ℝ) ≤ Real.exp 2.15 :=
  le_trans exp_two_lb (Real.exp_le_exp.mpr (by norm_num))

theorem exp_1p975_lb : (7.2 : ℝ) ≤ Real.exp 1.975 := by
  have h1 : (-0.025 : ℝ) + 1 ≤ Real.exp (-0.025) := Real.add_one_le_exp (-0.025)
  have h2 : Real.exp 1.975 = Real.exp 2 * Real.exp (-0.025) := by
    rw [← Real.exp_add]; norm_num
  nlinarith [Real.exp_pos (-0.025 : ℝ), exp_two_lb]

theorem exp_3p325_lb : (26.6 : ℝ) ≤ Real.exp 3.325 := by
  have h1 : (2.7182818283 : ℝ) < Real.exp 1 := Real.exp_one_gt_d9
  have h2 : (1.325 : ℝ) ≤ Real.exp 0.325 := by
    have := Real.add_one_le_exp (0.325 : ℝ); linarith
  have h3 : Real.exp 3.325 = Real.exp 1 * Real.exp 1 * Real.exp 1 * Real.exp 0.325 := by
    rw [← Real.exp_add, ← Real.exp_add, ← Real.exp_add]; norm_num
  have hp : (0 : ℝ) < Real.exp 1 := Real.exp_pos 1
  have h4 : (7.389 : ℝ) ≤ Real.exp 1 * Real.exp 1 := by nlinarith
  have h5 : (20.08 : ℝ) ≤ Real.exp 1 * Real.exp 1 * Real.exp 1 := by nlinarith
  rw [h3]
  nlinarith [Real.exp_pos (0.325 : ℝ)]

theorem exp_1p075_lb : (2.075 : ℝ) ≤ Real.exp 1.075 := by
  have := Real.add_one_le_exp (1.075 : ℝ)
  linarith

/-- Projection of the engine result onto its probability computation. -/
theorem analyze_aiP (f : FileDesc) (now : ℚ) (hour day : ℕ) (r : RandomDraws) (e : ℚ) :
    (analyzeFile f now hour day r e).aiProbability
      = max 0 (min 100 (jround (applyNonLinearScaling
          (rawScore ((deepMetadataAnalysis f now : ℚ) : ℝ) ((advancedFilenameAnalysis f : ℚ) : ℝ)
            ((fileStructureAnalysis f : ℚ) : ℝ) ((contentPatternAnalysis f r : ℚ) : ℝ)
            ((temporalAnalysis hour day r : ℚ) : ℝ))
          (calculateConsistency ((deepMetadataAnalysis f now : ℚ) : ℝ)
            ((advancedFilenameAnalysis f : ℚ) : ℝ) ((fileStructureAnalysis f : ℚ) : ℝ)
            ((contentPatternAnalysis f r : ℚ) : ℝ) ((temporalAnalysis hour day r : ℚ) : ℝ))))) :=
  rfl

/-- Projection of the engine result onto its indicator computation. -/
theorem analyze_inds (f : FileDesc) (now : ℚ) (hour day : ℕ) (r : RandomDraws) (e : ℚ) :
    (analyzeFile f now hour day r e).indicators
      = generateDetailedIndicators f (deepMetadataAnalysis f now) (advancedFilenameAnalysis f)
          (fileStructureAnalysis f) (contentPatternAnalysis f r) (temporalAnalysis hour day r) :=
  rfl

/-! ## Claim C4 -/

theorem patternScore_first_only (ps : List (List Char → Bool)) (s : List Char) :
    patternScore ps s = if ps.any (fun p => p s) then 20 else 0 := by
  induction ps with
  | nil => simp [patternScore]
  | cons p ps ih =>
    by_cases h : p s = true
    · simp [patternScore, h]
    · simp [patternScore, h, ih]

/-- Claim C4: in the filename extractor, the suspicious-pattern list contributes
its +20 bonus at most once: for every filename the loop over
`SUSPICIOUS_FILENAME_PATTERNS` yields exactly 20 when some pattern matches the
lowercased name and 0 otherwise (the first match ends the loop), so the
contribution never exceeds 20 however many patterns match. -/
theorem claim_C4 (fn : String) :
    patternScore SUSPICIOUS_FILENAME_PATTERNS (strLower fn).data
        = (if SUSPICIOUS_FILENAME_PATTERNS.any (fun p => p (strLower fn).data)
           then 20 else 0) ∧
    patternScore SUSPICIOUS_FILENAME_PATTERNS (strLower fn).data ≤ 20 := by
  refine ⟨patternScore_first_only _ _, ?_⟩
  rw [patternScore_first_only]
  split_ifs <;> norm_num

/-! ## Claim C2 -/

theorem agg_eq_spec (m fn st ct tp : ℝ) :
    applyNonLinearScaling (rawScore m fn st ct tp) (calculateConsistency m fn st ct tp)
      = specAggregate m fn st ct tp := by
  unfold applyNonLinearScaling rawScore calculateConsistency specAggregate
  have harg : (-0.1 : ℝ) * (m * 0.25 + fn * 0.20 + st * 0.20 + ct * 0.25 + tp * 0.10 - 50)
      = -0.1 * (0.25 * m + 0.20 * fn + 0.20 * st + 0.25 * ct + 0.10 * tp - 50) := by ring
  rw [harg, mul_comm (max 0 (1 - Real.sqrt _ / 50)) 10, max_min_distrib_left]
  norm_num

/-- Claim C2: the aggregator computes the pre-rounding probability exactly as
the spec formula: clamp to [5,95] of `100/(1+exp(-0.1*(rawScore-50))) plus
10*consistency`, with `rawScore` the fixed weighted sum (0.25/0.20/0.20/0.25/0.10)
and `consistency = max(0, 1 - stddev/50)` for the population standard deviation
of the five extractor outputs; and `analyzeFile` rounds and clamps that value. -/
theorem claim_C2 :
    (∀ m fn st ct tp : ℝ,
      applyNonLinearScaling (rawScore m fn st ct tp) (calculateConsistency m fn st ct tp)
        = specAggregate m fn st ct tp) ∧
    (∀ (f : FileDesc) (now : ℚ) (hour day : ℕ) (r : RandomDraws) (e : ℚ),
      (analyzeFile f now hour day r e).aiProbability
        = max 0 (min 100 (jround (specAggregate
            ((deepMetadataAnalysis f now : ℚ) : ℝ) ((advancedFilenameAnalysis f : ℚ) : ℝ)
            ((fileStructureAnalysis f : ℚ) : ℝ) ((contentPatternAnalysis f r : ℚ) : ℝ)
            ((temporalAnalysis hour day r : ℚ) : ℝ))))) := by
  refine ⟨agg_eq_spec, fun f now hour day r e => ?_⟩
  rw [analyze_aiP, agg_eq_spec]

/-! ## Claim C6 -/

/-- Claim C6: when all five extractor outputs are equal, the consistency is
exactly 1, the pre-clamp base confidence `60 + consistency*30` is already at
least 90, and the confidence returned by the estimator is at least 90 (it is in
fact the ceiling 98 after the [65,98] clamp). -/
theorem conf_round_ge {c2 : ℝ} (h : 98 ≤ c2) : (90 : ℤ) ≤ jround (max 65 (min 98 c2)) := by
  have h1 : min (98 : ℝ) c2 = 98 := min_eq_left h
  rw [h1]
  have h2 : max (65 : ℝ) 98 = 98 := by norm_num
  rw [h2]
  exact le_jround (by norm_num)

theorem claim_C6 (x : ℝ) :
    calculateConsistency x x x x x = 1 ∧
    90 ≤ 60 + calculateConsistency x x x x x * 30 ∧
    90 ≤ calculateAdvancedConfidence x x x x x (calculateConsistency x x x x x) := by
  have hcons : calculateConsistency x x x x x = 1 := by
    simp only [calculateConsistency]
    have hvar : ((x - (x + x + x + x + x) / 5) ^ 2 + (x - (x + x + x + x + x) / 5) ^ 2
        + (x - (x + x + x + x + x) / 5) ^ 2 + (x - (x + x + x + x + x) / 5) ^ 2
        + (x - (x + x + x + x + x) / 5) ^ 2) / 5 = (0 : ℝ) := by ring
    rw [hvar, Real.sqrt_zero]
    norm_num
  refine ⟨hcons, by rw [hcons]; norm_num, ?_⟩
  rw [hcons]
  simp only [calculateAdvancedConfidence]
  have hmax : max x (max x (max x (max x x))) = x := by simp
  have hmin : min x (min x (min x (min x x))) = x := by simp
  rw [hmax, hmin]
  have hrange : x - x = (0 : ℝ) := by ring
  rw [hrange]
  rw [if_pos (by norm_num : (0 : ℝ) < 20)]
  apply conf_round_ge
  split_ifs <;> norm_num

/-! ## Claims C5 and C10 -/

/-- The fixed (name, description) signature of the image indicator list. -/
def imageIndicatorSig : List (String × String) :=
  [("Deep Metadata Analysis",
    "Advanced file creation patterns, timestamps, and metadata signatures"),
   ("Filename Intelligence",
    "AI tool signatures, parameter patterns, and naming conventions"),
   ("Structural Forensics",
    "File format analysis, compression patterns, and encoding signatures"),
   ("Content Pattern Recognition",
    "Pixel analysis, color distribution, and visual consistency patterns"),
   ("Temporal Behavioral Analysis",
    "Creation time patterns and usage behavior analysis"),
   ("Compression Artifact Detection",
    "AI-specific compression signatures and quality patterns")]

/-- The fixed (name, description) signature of the video indicator list. -/
def videoIndicatorSig : List (String × String) :=
  [("Video Temporal Analysis",
    "Frame consistency, motion patterns, and temporal coherence"),
   ("Encoding Forensics",
    "Video codec analysis, bitrate patterns, and compression signatures"),
   ("Metadata Intelligence",
    "Creation metadata, file properties, and timestamp analysis"),
   ("Quality Metrics Analysis",
    "Resolution patterns, quality consistency, and artifact detection"),
   ("Behavioral Pattern Analysis",
    "Creation timing, usage patterns, and batch detection")]

/-- A MIME type cannot start with both prefixes. -/
theorem image_not_video {s : String} (h : strStarts "video/" s = true) :
    strStarts "image/" s = false := by
  unfold strStarts at h ⊢
  have hv : "video/".data = ['v', 'i', 'd', 'e', 'o', '/'] := rfl
  have hi : "image/".data = ['i', 'm', 'a', 'g', 'e', '/'] := rfl
  rw [hv] at h
  rw [hi]
  cases s with
  | mk data =>
    cases data with
    | nil => exact absurd h (by decide)
    | cons c cs =>
      simp only [startsList] at h ⊢
      by_cases hc : ('v' : Char) = c
      · have hninetype : ¬(('i' : Char) = c) := by rw [← hc]; decide
        rw [if_neg hninetype]
      · rw [if_neg hc] at h
        exact absurd h (by decide)

theorem inds_image_sig (f : FileDesc) (m fn st ct tp : ℚ)
    (h : strStarts "image/" f.mimeType = true) :
    ((generateDetailedIndicators f m fn st ct tp).map fun i => (i.name, i.description))
      = imageIndicatorSig := by
  unfold generateDetailedIndicators
  rw [if_pos h]
  rfl

theorem inds_video_sig (f : FileDesc) (m fn st ct tp : ℚ)
    (h : strStarts "image/" f.mimeType = false) :
    ((generateDetailedIndicators f m fn st ct tp).map fun i => (i.name, i.description))
      = videoIndicatorSig := by
  unfold generateDetailedIndicators
  rw [if_neg (by simp [h])]
  rfl

/-- Claim C5: the indicator names, descriptions, ordering and length are a pure
function of the MIME classification: every `image/*` input yields the fixed
6-entry image list, every `video/*` input the fixed 5-entry video list,
independently of all other descriptor fields, the clock, and the random draws. -/
theorem claim_C5 (f : FileDesc) (now : ℚ) (hour day : ℕ) (r : RandomDraws) (e : ℚ) :
    (strStarts "image/" f.mimeType = true →
      ((analyzeFile f now hour day r e).indicators.map fun i => (i.name, i.description))
        = imageIndicatorSig) ∧
    (strStarts "video/" f.mimeType = true →
      ((analyzeFile f now hour day r e).indicators.map fun i => (i.name, i.description))
        = videoIndicatorSig) := by
  constructor
  · intro h
    rw [analyze_inds]
    exact inds_image_sig f _ _ _ _ _ h
  · intro h
    rw [analyze_inds]
    exact inds_video_sig f _ _ _ _ _ (image_not_video h)

/-- All-zero random draws, used as a concrete random-source behaviour. -/
def rdraws0 : RandomDraws := ⟨0, 0, 0, 0, 0, 0, 0⟩

/-- Witness for C5 at a concrete image descriptor and a concrete video descriptor. -/
theorem claim_C5_witness :
    (strStarts "image/" "image/png" = true ∧
      ((analyzeFile ⟨"a.png", "image/png", 1000, 5⟩ 9 3 4 rdraws0 0).indicators.map
        fun i => (i.name, i.description)) = imageIndicatorSig) ∧
    (strStarts "video/" "video/mp4" = true ∧
      ((analyzeFile ⟨"b.mp4", "video/mp4", 1000, 5⟩ 9 3 4 rdraws0 0).indicators.map
        fun i => (i.name, i.description)) = videoIndicatorSig) :=
  ⟨⟨rfl, (claim_C5 ⟨"a.png", "image/png", 1000, 5⟩ 9 3 4 rdraws0 0).1 rfl⟩,
   ⟨rfl, (claim_C5 ⟨"b.mp4", "video/mp4", 1000, 5⟩ 9 3 4 rdraws0 0).2 rfl⟩⟩

/-- Claim C10: a descriptor whose MIME type is neither `image/*` nor `video/*`
falls into the video branch of the indicator generator (the 5-entry video list)
while its content-pattern extractor skips both sub-analyses and returns exactly
the base score 25. -/
theorem claim_C10 (f : FileDesc) (now : ℚ) (hour day : ℕ) (r : RandomDraws) (e : ℚ)
    (himg : strStarts "image/" f.mimeType = false)
    (hvid : strStarts "video/" f.mimeType = false) :
    ((analyzeFile f now hour day r e).indicators.map fun i => (i.name, i.description))
        = videoIndicatorSig ∧
    contentPatternAnalysis f r = 25 := by
  constructor
  · rw [analyze_inds]
    exact inds_video_sig f _ _ _ _ _ himg
  · unfold contentPatternAnalysis
    rw [if_neg (by simp [himg]), if_neg (by simp [hvid])]
    norm_num [clamp100]

/-- Witness for C10 at a concrete `application/pdf` descriptor. -/
theorem claim_C10_witness :
    strStarts "image/" "application/pdf" = false ∧
    strStarts "video/" "application/pdf" = false ∧
    (((analyzeFile ⟨"doc.pdf", "application/pdf", 1000, 5⟩ 9 3 4 rdraws0 0).indicators.map
        fun i => (i.name, i.description)) = videoIndicatorSig ∧
      contentPatternAnalysis ⟨"doc.pdf", "application/pdf", 1000, 5⟩ rdraws0 = 25) :=
  ⟨rfl, rfl, claim_C10 ⟨"doc.pdf", "application/pdf", 1000, 5⟩ 9 3 4 rdraws0 0 rfl rfl⟩

/-! ## Claim C1 -/

theorem meta_range (f : FileDesc) (now : ℚ) :
    0 ≤ deepMetadataAnalysis f now ∧ deepMetadataAnalysis f now ≤ 100 :=
  ⟨clamp100_nonneg _, clamp100_le_100 _⟩

theorem filename_range (f : FileDesc) :
    0 ≤ advancedFilenameAnalysis f ∧ advancedFilenameAnalysis f ≤ 100 :=
  ⟨clamp100_nonneg _, clamp100_le_100 _⟩

theorem structure_range (f : FileDesc) :
    0 ≤ fileStructureAnalysis f ∧ fileStructureAnalysis f ≤ 100 :=
  ⟨clamp100_nonneg _, clamp100_le_100 _⟩

theorem content_range (f : FileDesc) (r : RandomDraws) :
    0 ≤ contentPatternAnalysis f r ∧ contentPatternAnalysis f r ≤ 100 :=
  ⟨clamp100_nonneg _, clamp100_le_100 _⟩

theorem temporal_range (hour day : ℕ) (r : RandomDraws) :
    0 ≤ temporalAnalysis hour day r ∧ temporalAnalysis hour day r ≤ 100 :=
  ⟨clamp100_nonneg _, clamp100_le_100 _⟩

theorem jround_clamp_range (c2 : ℝ) :
    0 ≤ jround (max 65 (min 98 c2)) ∧ jround (max 65 (min 98 c2)) ≤ 100 := by
  have h65 : (65 : ℝ) ≤ max 65 (min 98 c2) := le_max_left _ _
  have h98 : max (65 : ℝ) (min 98 c2) ≤ 98 := max_le (by norm_num) (min_le_left _ _)
  constructor
  · exact le_jround (by push_cast; linarith)
  · have h : jround (max (65 : ℝ) (min 98 c2)) < 101 := jround_lt (by push_cast; linarith)
    omega

theorem confidence_range (m fn st ct tp consistency : ℝ) :
    0 ≤ calculateAdvancedConfidence m fn st ct tp consistency ∧
    calculateAdvancedConfidence m fn st ct tp consistency ≤ 100 :=
  jround_clamp_range _

/-- Projection of the engine result onto its confidence computation. -/
theorem analyze_conf (f : FileDesc) (now : ℚ) (hour day : ℕ) (r : RandomDraws) (e : ℚ) :
    (analyzeFile f now hour day r e).confidence
      = calculateAdvancedConfidence ((deepMetadataAnalysis f now : ℚ) : ℝ)
          ((advancedFilenameAnalysis f : ℚ) : ℝ) ((fileStructureAnalysis f : ℚ) : ℝ)
          ((contentPatternAnalysis f r : ℚ) : ℝ) ((temporalAnalysis hour day r : ℚ) : ℝ)
          (calculateConsistency ((deepMetadataAnalysis f now : ℚ) : ℝ)
            ((advancedFilenameAnalysis f : ℚ) : ℝ) ((fileStructureAnalysis f : ℚ) : ℝ)
            ((contentPatternAnalysis f r : ℚ) : ℝ) ((temporalAnalysis hour day r : ℚ) : ℝ)) :=
  rfl

theorem inds_scores_range (f : FileDesc) (m fn st ct tp : ℚ)
    (hm : 0 ≤ m ∧ m ≤ 100) (hfn : 0 ≤ fn ∧ fn ≤ 100) (hst : 0 ≤ st ∧ st ≤ 100)
    (hct : 0 ≤ ct ∧ ct ≤ 100) (htp : 0 ≤ tp ∧ tp ≤ 100) :
    ∀ i ∈ generateDetailedIndicators f m fn st ct tp, 0 ≤ i.score ∧ i.score ≤ 100 := by
  intro i hi
  obtain ⟨hm0, hm1⟩ := hm
  obtain ⟨hfn0, hfn1⟩ := hfn
  obtain ⟨hst0, hst1⟩ := hst
  obtain ⟨hct0, hct1⟩ := hct
  obtain ⟨htp0, htp1⟩ := htp
  unfold generateDetailedIndicators at hi
  split_ifs at hi
  · simp only [List.mem_cons, List.not_mem_nil, or_false] at hi
    rcases hi with rfl | rfl | rfl | rfl | rfl | rfl <;>
      exact jroundQ_bounds (by linarith) (by linarith)
  · simp only [List.mem_cons, List.not_mem_nil, or_false] at hi
    rcases hi with rfl | rfl | rfl | rfl | rfl <;>
      exact jroundQ_bounds (by linarith) (by linarith)

/-- Claim C1: for every descriptor, clock reading, hour/day, and behaviour of
the random source, the result of `analyzeFile` has `aiProbability` in [0,100],
`confidence` in [0,100], and every indicator score in [0,100]. -/
theorem claim_C1 (f : FileDesc) (now : ℚ) (hour day : ℕ) (r : RandomDraws) (e : ℚ) :
    0 ≤ (analyzeFile f now hour day r e).aiProbability ∧
    (analyzeFile f now hour day r e).aiProbability ≤ 100 ∧
    0 ≤ (analyzeFile f now hour day r e).confidence ∧
    (analyzeFile f now hour day r e).confidence ≤ 100 ∧
    ∀ i ∈ (analyzeFile f now hour day r e).indicators, 0 ≤ i.score ∧ i.score ≤ 100 := by
  refine ⟨?_, ?_, ?_, ?_, ?_⟩
  · rw [analyze_aiP]
    exact le_max_left _ _
  · rw [analyze_aiP]
    exact max_le (by norm_num) (min_le_left _ _)
  · rw [analyze_conf]
    exact (confidence_range _ _ _ _ _ _).1
  · rw [analyze_conf]
    exact (confidence_range _ _ _ _ _ _).2
  · rw [analyze_inds]
    exact inds_scores_range f _ _ _ _ _ (meta_range f now) (filename_range f)
      (structure_range f) (content_range f r) (temporal_range hour day r)

/-! ## Claim C3 -/

theorem ageBucket_anti {a b : ℚ} (h : a ≤ b) : ageBucket b ≤ ageBucket a := by
  unfold ageBucket
  split_ifs <;> linarith

/-- Counterexample to C3 as stated: a descriptor with `lastModified = 0` is the
older of the two (smaller timestamp), yet the `file.lastModified || now`
fallback treats it as created right now, so it scores the maximal recency bonus
and beats the descriptor with `lastModified = 1`. -/
theorem claim_C3_cex :
    ¬(deepMetadataAnalysis ⟨"a", "", 0, 0⟩ 1000000000000 ≤
      deepMetadataAnalysis ⟨"a", "", 0, 1⟩ 1000000000000) := by
  have himg : strStarts "image/" "" = false := by decide
  have hvid : strStarts "video/" "" = false := by decide
  have h0 : deepMetadataAnalysis ⟨"a", "", 0, 0⟩ 1000000000000 = 45 := by
    simp only [deepMetadataAnalysis]
    norm_num [ageBucket, metaSizeAdj, clamp100, himg, hvid, min_def, max_def,
      show metaTypeAdj "" = 0 from by decide]
  have h1 : deepMetadataAnalysis ⟨"a", "", 0, 1⟩ 1000000000000 = 0 := by
    simp only [deepMetadataAnalysis]
    norm_num [ageBucket, metaSizeAdj, clamp100, himg, hvid, min_def, max_def,
      show metaTypeAdj "" = 0 from by decide]
  rw [h0, h1]
  norm_num

/-- Claim C3 (amended): for two descriptors that differ only in a nonzero
`lastModified`, evaluated at the same clock reading, the one with the smaller
timestamp (greater age) receives a metadata sub-score less than or equal to the
other's. The zero timestamp must be excluded: it triggers the
missing-timestamp fallback to `now`. -/
theorem claim_C3 (nm mt : String) (sz lm1 lm2 now : ℚ)
    (h1 : lm1 ≠ 0) (h2 : lm2 ≠ 0) (hle : lm1 ≤ lm2) :
    deepMetadataAnalysis ⟨nm, mt, sz, lm1⟩ now ≤ deepMetadataAnalysis ⟨nm, mt, sz, lm2⟩ now := by
  simp only [deepMetadataAnalysis]
  rw [if_neg h1, if_neg h2]
  apply clamp100_mono
  have hage : (now - lm2) / 3600000 ≤ (now - lm1) / 3600000 := by
    apply div_le_div_of_nonneg_right ?_ (by norm_num)
    linarith
  have hb := ageBucket_anti hage
  linarith

/-- Witness for the amended C3 at concrete nonzero timestamps. -/
theorem claim_C3_witness :
    (1 : ℚ) ≠ 0 ∧ (2 : ℚ) ≠ 0 ∧ (1 : ℚ) ≤ 2 ∧
    deepMetadataAnalysis ⟨"a", "", 0, 1⟩ 7 ≤ deepMetadataAnalysis ⟨"a", "", 0, 2⟩ 7 :=
  ⟨by norm_num, by norm_num, by norm_num,
   claim_C3 "a" "" 0 1 2 7 (by norm_num) (by norm_num) (by norm_num)⟩

/-! ## Claim C7 -/

/-- Total length of the matched signatures (used to evaluate `signatureBonus`). -/
def signatureLenSum (filename : String) : ℕ :=
  ((AI_GENERATION_SIGNATURES.filter fun sig => occursIn sig filename).map String.length).sum

theorem sigBonus_list_eq (l : List String) (fn : String) :
    (l.map fun sig => if occursIn sig fn then 25 + 2 * (sig.length : ℚ) else 0).sum
      = 25 * (((l.filter fun sig => occursIn sig fn).length : ℕ) : ℚ)
        + 2 * ((((l.filter fun sig => occursIn sig fn).map String.length).sum : ℕ) : ℚ) := by
  induction l with
  | nil => simp
  | cons a l ih =>
    by_cases h : occursIn a fn = true
    · simp only [List.map_cons, List.sum_cons, List.filter_cons, h, if_true, ih,
        List.length_cons]
      push_cast
      ring
    · simp only [List.map_cons, List.sum_cons, List.filter_cons, h, if_false,
        Bool.false_eq_true, ite_false, ih]
      norm_num

theorem signatureBonus_eq (fn : String) :
    signatureBonus fn = 25 * (signatureMatches fn : ℚ) + 2 * (signatureLenSum fn : ℚ) := by
  unfold signatureBonus signatureMatches signatureLenSum
  exact sigBonus_list_eq _ _

/-- The content extractor returns its base score for inputs that are neither
image-like nor video-like. -/
theorem content_other {f : FileDesc} (r : RandomDraws)
    (himg : strStarts "image/" f.mimeType = false)
    (hvid : strStarts "video/" f.mimeType = false) :
    contentPatternAnalysis f r = 25 := by
  unfold contentPatternAnalysis
  rw [if_neg (by simp [himg]), if_neg (by simp [hvid])]
  norm_num [clamp100]

/-- Claim C7 (amended): with the descriptor, the clock reading, the timestamp
clock fields, and the random draws all fixed, repeated calls agree on
`aiProbability`, `confidence`, `indicators` and `explanation` — even when the
measured processing time differs between the calls. -/
theorem claim_C7 (f : FileDesc) (now : ℚ) (hour day : ℕ) (r : RandomDraws) (e1 e2 : ℚ) :
    (analyzeFile f now hour day r e1).aiProbability
        = (analyzeFile f now hour day r e2).aiProbability ∧
    (analyzeFile f now hour day r e1).confidence
        = (analyzeFile f now hour day r e2).confidence ∧
    (analyzeFile f now hour day r e1).indicators
        = (analyzeFile f now hour day r e2).indicators ∧
    (analyzeFile f now hour day r e1).explanation
        = (analyzeFile f now hour day r e2).explanation :=
  ⟨rfl, rfl, rfl, rfl⟩

/-- The descriptor of the C7 counterexample: a file stamped at epoch
millisecond 10^12 with an uninformative name and MIME type. -/
def fileDet : FileDesc := ⟨"x", "", 0, 1000000000000⟩

/-- Fixed random draws, all 9/10 (no random branch fires). -/
def rdraws9 : RandomDraws := ⟨9/10, 9/10, 9/10, 9/10, 9/10, 9/10, 9/10⟩

theorem filename_fileDet : advancedFilenameAnalysis fileDet = 25 := by
  simp only [advancedFilenameAnalysis, fileDet]
  simp only [show strLower "x" = "x" from by decide]
  rw [signatureBonus_eq, patternScore_first_only]
  norm_num [show signatureMatches "x" = 0 from by decide,
    show signatureLenSum "x" = 0 from by decide,
    show (SUSPICIOUS_FILENAME_PATTERNS.any fun p => p "x".data) = false from by decide,
    show hasHashToken "x".data = false from by decide,
    show hasNumToken "x".data = false from by decide,
    show hasParamPattern "x".data = false from by decide,
    show genericName (stripDotExt "x".data) = false from by decide,
    show profMatch "x".data = false from by decide,
    show ("x" : String).length = 1 from by decide,
    clamp100, min_def, max_def]

theorem structure_fileDet : fileStructureAnalysis fileDet = 20 := by
  simp only [fileStructureAnalysis, fileDet]
  norm_num [show strStarts "image/" "" = false from by decide,
    show strStarts "video/" "" = false from by decide,
    clamp100, min_def, max_def]

theorem temporal_12_1 : temporalAnalysis 12 1 rdraws9 = 15 := by
  simp only [temporalAnalysis, rdraws9]
  norm_num [clamp100, min_def, max_def]

theorem meta_fileDet_early : deepMetadataAnalysis fileDet 1000001800000 = 45 := by
  simp only [deepMetadataAnalysis, fileDet]
  rw [if_neg (by norm_num)]
  norm_num [ageBucket, metaSizeAdj, clamp100, min_def, max_def,
    show strStarts "image/" "" = false from by decide,
    show strStarts "video/" "" = false from by decide,
    show metaTypeAdj "" = 0 from by decide]

theorem meta_fileDet_late : deepMetadataAnalysis fileDet 1034560000000 = 0 := by
  simp only [deepMetadataAnalysis, fileDet]
  rw [if_neg (by norm_num)]
  norm_num [ageBucket, metaSizeAdj, clamp100, min_def, max_def,
    show strStarts "image/" "" = false from by decide,
    show strStarts "video/" "" = false from by decide,
    show metaTypeAdj "" = 0 from by decide]

theorem aiP_early_lb :
    (14 : ℤ) ≤ jround (applyNonLinearScaling (rawScore 45 25 20 25 15)
      (calculateConsistency 45 25 20 25 15)) := by
  have hraw : rawScore (45 : ℝ) 25 20 25 15 = 28 := by
    simp only [rawScore]; norm_num
  have hvar : calculateConsistency (45 : ℝ) 25 20 25 15
      = max 0 (1 - Real.sqrt 104 / 50) := by
    simp only [calculateConsistency]
    norm_num
  have hsq : Real.sqrt 104 ≤ 10.2 := sqrt_le_of_sq (by norm_num) (by norm_num)
  have hcons : (0.796 : ℝ) ≤ calculateConsistency (45 : ℝ) 25 20 25 15 := by
    rw [hvar]
    exact le_trans (by linarith) (le_max_right _ _)
  have hexp : (1 : ℝ) + Real.exp (-0.1 * ((28 : ℝ) - 50)) ≤ 10.236321 := by
    have harg : (-0.1 : ℝ) * ((28 : ℝ) - 50) = 2.2 := by norm_num
    rw [harg]
    have := exp_2p2_ub
    linarith
  have hpos : (0 : ℝ) < 1 + Real.exp (-0.1 * ((28 : ℝ) - 50)) := by positivity
  have hlog : (9.769 : ℝ) ≤ 100 / (1 + Real.exp (-0.1 * ((28 : ℝ) - 50))) := by
    rw [le_div_iff hpos]
    nlinarith
  refine le_jround ?_
  have hval : (13.5 : ℝ) ≤ applyNonLinearScaling (rawScore 45 25 20 25 15)
      (calculateConsistency 45 25 20 25 15) := by
    refine le_scaling (by norm_num) ?_
    rw [hraw]
    nlinarith
  push_cast
  linarith

theorem aiP_late_ub :
    jround (applyNonLinearScaling (rawScore 0 25 20 25 15)
      (calculateConsistency 0 25 20 25 15)) ≤ 12 := by
  have hraw : rawScore (0 : ℝ) 25 20 25 15 = 16.75 := by
    simp only [rawScore]; norm_num
  have hvar : calculateConsistency (0 : ℝ) 25 20 25 15
      = max 0 (1 - Real.sqrt 86 / 50) := by
    simp only [calculateConsistency]
    norm_num
  have hsq : (9.27 : ℝ) ≤ Real.sqrt 86 := le_sqrt_of_sq (by norm_num) (by norm_num)
  have hcons : calculateConsistency (0 : ℝ) 25 20 25 15 ≤ 0.8146 := by
    rw [hvar]
    exact max_le (by norm_num) (by linarith)
  have hexp : (27.6 : ℝ) ≤ 1 + Real.exp (-0.1 * ((16.75 : ℝ) - 50)) := by
    have harg : (-0.1 : ℝ) * ((16.75 : ℝ) - 50) = 3.325 := by norm_num
    rw [harg]
    have := exp_3p325_lb
    linarith
  have hpos : (0 : ℝ) < 1 + Real.exp (-0.1 * ((16.75 : ℝ) - 50)) := by positivity
  have hlog : 100 / (1 + Real.exp (-0.1 * ((16.75 : ℝ) - 50))) ≤ 3.63 := by
    rw [div_le_iff hpos]
    nlinarith
  have hval : applyNonLinearScaling (rawScore 0 25 20 25 15)
      (calculateConsistency 0 25 20 25 15) ≤ 12.3 := by
    unfold applyNonLinearScaling
    refine max_le (by norm_num) (le_trans (min_le_right _ _) ?_)
    rw [hraw]
    nlinarith
  have h13 : jround (applyNonLinearScaling (rawScore 0 25 20 25 15)
      (calculateConsistency 0 25 20 25 15)) < 13 := jround_lt (by push_cast; linarith)
  omega

/-- Counterexample to C7 as stated: the same descriptor analysed twice with the
same random draws but at two different `Date.now()` readings (30 minutes after
the file timestamp versus 400 days after) receives two different
`aiProbability` values, because the metadata extractor scores the file's age
against the ambient clock. -/
theorem claim_C7_cex :
    (analyzeFile fileDet 1000001800000 12 1 rdraws9 0).aiProbability
      ≠ (analyzeFile fileDet 1034560000000 12 1 rdraws9 0).aiProbability := by
  have hc1 : contentPatternAnalysis fileDet rdraws9 = 25 :=
    content_other rdraws9 (by decide) (by decide)
  have h1 : (14 : ℤ) ≤ (analyzeFile fileDet 1000001800000 12 1 rdraws9 0).aiProbability := by
    rw [analyze_aiP, meta_fileDet_early, filename_fileDet, structure_fileDet, hc1,
      temporal_12_1]
    push_cast
    have := aiP_early_lb
    calc (14 : ℤ) ≤ min 100 (jround (applyNonLinearScaling (rawScore 45 25 20 25 15)
        (calculateConsistency 45 25 20 25 15))) := le_min (by norm_num) this
    _ ≤ _ := le_max_right _ _
  have h2 : (analyzeFile fileDet 1034560000000 12 1 rdraws9 0).aiProbability ≤ 12 := by
    rw [analyze_aiP, meta_fileDet_late, filename_fileDet, structure_fileDet, hc1,
      temporal_12_1]
    push_cast
    have := aiP_late_ub
    exact max_le (by norm_num) (le_trans (min_le_right _ _) this)
  omega

/-! ## Claim C8 -/

/-- The scenario-2 descriptor: professional name, JPEG, 12 MB, 400 days old
(400 days = 34560000000 ms before the clock reading). -/
def fileScene2 (now : ℚ) : FileDesc :=
  ⟨"IMG_2024_01_15.jpg", "image/jpeg", 12582912, now - 34560000000⟩

theorem filename_scene2 (now : ℚ) : advancedFilenameAnalysis (fileScene2 now) = 10 := by
  simp only [advancedFilenameAnalysis, fileScene2]
  simp only [show strLower "IMG_2024_01_15.jpg" = "img_2024_01_15.jpg" from by decide]
  rw [signatureBonus_eq, patternScore_first_only]
  norm_num [show signatureMatches "img_2024_01_15.jpg" = 0 from by decide,
    show signatureLenSum "img_2024_01_15.jpg" = 0 from by decide,
    show (SUSPICIOUS_FILENAME_PATTERNS.any fun p => p "img_2024_01_15.jpg".data) = false
      from by decide,
    show hasHashToken "img_2024_01_15.jpg".data = false from by decide,
    show hasNumToken "img_2024_01_15.jpg".data = true from by decide,
    show hasParamPattern "img_2024_01_15.jpg".data = false from by decide,
    show genericName (stripDotExt "img_2024_01_15.jpg".data) = false from by decide,
    show profMatch "IMG_2024_01_15.jpg".data = true from by decide,
    show ("img_2024_01_15.jpg" : String).length = 18 from by decide,
    clamp100, min_def, max_def]

theorem structure_scene2 (now : ℚ) : fileStructureAnalysis (fileScene2 now) = 0 := by
  simp only [fileStructureAnalysis, fileScene2]
  norm_num [show strStarts "image/" "image/jpeg" = true from by decide,
    show strStarts "video/" "image/jpeg" = false from by decide,
    show extOf "IMG_2024_01_15.jpg" = "jpg" from by decide,
    show ¬(("jpg" : String) = "png") from by decide,
    show ¬(("jpg" : String) = "webp") from by decide,
    show ¬(("image/jpeg" : String) = "image/png") from by decide,
    clamp100, min_def, max_def]

theorem meta_scene2 (now : ℚ) (h : 34560000000 < now) :
    deepMetadataAnalysis (fileScene2 now) now = 0 := by
  simp only [deepMetadataAnalysis, fileScene2]
  rw [if_neg (by intro h0; rw [sub_eq_zero] at h0; rw [h0] at h; exact absurd h (by norm_num))]
  rw [sub_sub_cancel]
  norm_num [ageBucket, metaSizeAdj, metaTypeAdj, clamp100, min_def, max_def,
    show strStarts "image/" "image/jpeg" = true from by decide,
    show ¬(("image/jpeg" : String) = "image/png") from by decide,
    show ¬(("image/jpeg" : String) = "image/webp") from by decide]

theorem content_scene2_ub (now : ℚ) (r : RandomDraws) :
    contentPatternAnalysis (fileScene2 now) r ≤ 80 := by
  simp only [contentPatternAnalysis, fileScene2, simulateAdvancedImageAnalysis,
    show strStarts "image/" "image/jpeg" = true from by decide, if_true]
  refine clamp100_le_of (by norm_num) ?_
  norm_num [show ¬(("image/jpeg" : String) = "image/png") from by decide,
    show ¬(("image/jpeg" : String) = "image/webp") from by decide]
  split_ifs <;> norm_num

theorem temporal_ub (hour day : ℕ) (r : RandomDraws) : temporalAnalysis hour day r ≤ 65 := by
  unfold temporalAnalysis
  refine clamp100_le_of (by norm_num) ?_
  split_ifs <;> norm_num

theorem aiP_scene2_ub (ct tp : ℝ) (hct0 : 0 ≤ ct) (hct : ct ≤ 80)
    (htp0 : 0 ≤ tp) (htp : tp ≤ 65) :
    jround (applyNonLinearScaling (rawScore 0 10 0 ct tp)
      (calculateConsistency 0 10 0 ct tp)) < 25 := by
  have hraw : rawScore (0 : ℝ) 10 0 ct tp ≤ 28.5 := by
    simp only [rawScore]; linarith
  have hcons : calculateConsistency (0 : ℝ) 10 0 ct tp ≤ 1 := consistency_le_one _ _ _ _ _
  have hlog := logistic_mono hraw
  have hexp : (8.389 : ℝ) ≤ 1 + Real.exp (-0.1 * ((28.5 : ℝ) - 50)) := by
    have harg : (-0.1 : ℝ) * ((28.5 : ℝ) - 50) = 2.15 := by norm_num
    rw [harg]
    have := exp_2p15_lb
    linarith
  have hpos : (0 : ℝ) < 1 + Real.exp (-0.1 * ((28.5 : ℝ) - 50)) := by positivity
  have h2 : 100 / (1 + Real.exp (-0.1 * ((28.5 : ℝ) - 50))) ≤ 11.93 := by
    rw [div_le_iff₀ hpos]
    nlinarith
  have hval : applyNonLinearScaling (rawScore 0 10 0 ct tp)
      (calculateConsistency 0 10 0 ct tp) < 24.5 := by
    unfold applyNonLinearScaling
    refine max_lt (by norm_num) (lt_of_le_of_lt (min_le_right _ _) ?_)
    have := consistency_nonneg (0 : ℝ) 10 0 ct tp
    linarith
  exact jround_lt (by push_cast; linarith)

/-- Claim C8: the descriptor with name `IMG_2024_01_15.jpg`, MIME `image/jpeg`,
12 MB and `lastModified` 400 days before the current clock reading (any reading
after day 400 of the epoch, so that the timestamp is positive) is penalised by
both the metadata and filename extractors (both land strictly below their base
scores of 10 and 15) and receives an `aiProbability` below 25 for every
behaviour of the random source and every hour/day classification. -/
theorem claim_C8 (now : ℚ) (hour day : ℕ) (r : RandomDraws) (e : ℚ)
    (h : 34560000000 < now) :
    deepMetadataAnalysis (fileScene2 now) now < 10 ∧
    advancedFilenameAnalysis (fileScene2 now) < 15 ∧
    (analyzeFile (fileScene2 now) now hour day r e).aiProbability < 25 := by
  have hm := meta_scene2 now h
  have hfn := filename_scene2 now
  refine ⟨by rw [hm]; norm_num, by rw [hfn]; norm_num, ?_⟩
  rw [analyze_aiP, hm, hfn, structure_scene2]
  have hct0 := (content_range (fileScene2 now) r).1
  have hctu := content_scene2_ub now r
  have htp0 := (temporal_range hour day r).1
  have htpu := temporal_ub hour day r
  push_cast
  have hb := aiP_scene2_ub ((contentPatternAnalysis (fileScene2 now) r : ℚ) : ℝ)
    ((temporalAnalysis hour day r : ℚ) : ℝ)
    (by exact_mod_cast hct0) (by exact_mod_cast hctu)
    (by exact_mod_cast htp0) (by exact_mod_cast htpu)
  exact max_lt (by norm_num) (lt_of_le_of_lt (min_le_right _ _) hb)

/-- Witness for C8 at a concrete clock reading, hour, day, and random draws. -/
theorem claim_C8_witness :
    (34560000000 : ℚ) < 1000000000000 ∧
    (deepMetadataAnalysis (fileScene2 1000000000000) 1000000000000 < 10 ∧
      advancedFilenameAnalysis (fileScene2 1000000000000) < 15 ∧
      (analyzeFile (fileScene2 1000000000000) 1000000000000 12 1 rdraws9 0).aiProbability < 25) :=
  ⟨by norm_num, claim_C8 1000000000000 12 1 rdraws9 0 (by norm_num)⟩

/-! ## Claim C9 -/

/-- The scenario-3 counterexample descriptor: a 700 MB video (700·1048576 bytes)
whose filename is saturated with AI signatures, one minute old. -/
def fileScene3 : FileDesc :=
  ⟨"stable-diffusion-generated.mp4", "video/mp4", 734003200, 999999940000⟩

theorem meta_scene3 : deepMetadataAnalysis fileScene3 1000000000000 = 30 := by
  simp only [deepMetadataAnalysis, fileScene3]
  rw [if_neg (by norm_num)]
  norm_num [ageBucket, metaSizeAdj, clamp100, min_def, max_def,
    show strStarts "image/" "video/mp4" = false from by decide,
    show strStarts "video/" "video/mp4" = true from by decide,
    show metaTypeAdj "video/mp4" = 15 from by decide]

theorem filename_scene3 : advancedFilenameAnalysis fileScene3 = 100 := by
  simp only [advancedFilenameAnalysis, fileScene3]
  simp only [show strLower "stable-diffusion-generated.mp4"
    = "stable-diffusion-generated.mp4" from by decide]
  rw [signatureBonus_eq, patternScore_first_only]
  norm_num [show signatureMatches "stable-diffusion-generated.mp4" = 3 from by decide,
    show signatureLenSum "stable-diffusion-generated.mp4" = 34 from by decide,
    show (SUSPICIOUS_FILENAME_PATTERNS.any
      fun p => p "stable-diffusion-generated.mp4".data) = true from by decide,
    show hasHashToken "stable-diffusion-generated.mp4".data = false from by decide,
    show hasNumToken "stable-diffusion-generated.mp4".data = false from by decide,
    show hasParamPattern "stable-diffusion-generated.mp4".data = false from by decide,
    show genericName (stripDotExt "stable-diffusion-generated.mp4".data) = false
      from by decide,
    show profMatch "stable-diffusion-generated.mp4".data = false from by decide,
    show ("stable-diffusion-generated.mp4" : String).length = 30 from by decide,
    clamp100, min_def, max_def]

theorem structure_scene3 : fileStructureAnalysis fileScene3 = 40 := by
  simp only [fileStructureAnalysis, fileScene3]
  norm_num [show strStarts "image/" "video/mp4" = false from by decide,
    show strStarts "video/" "video/mp4" = true from by decide,
    show extOf "stable-diffusion-generated.mp4" = "mp4" from by decide,
    clamp100, min_def, max_def]

theorem content_scene3 : contentPatternAnalysis fileScene3 rdraws0 = 75 := by
  simp only [contentPatternAnalysis, fileScene3, simulateAdvancedVideoAnalysis, rdraws0,
    show strStarts "image/" "video/mp4" = false from by decide,
    show strStarts "video/" "video/mp4" = true from by decide]
  norm_num [clamp100, min_def, max_def]

theorem temporal_scene3 : temporalAnalysis 23 0 rdraws0 = 65 := by
  simp only [temporalAnalysis, rdraws0]
  norm_num [clamp100, min_def, max_def]

theorem aiP_scene3_lb :
    (25 : ℤ) ≤ jround (applyNonLinearScaling (rawScore 30 100 40 75 65)
      (calculateConsistency 30 100 40 75 65)) := by
  have hraw : rawScore (30 : ℝ) 100 40 75 65 = 60.75 := by
    simp only [rawScore]; norm_num
  have hexpn : Real.exp (-(1.075 : ℝ)) ≤ 0.482 := by
    rw [Real.exp_neg]
    have h2 : (2.075 : ℝ)⁻¹ ≤ 0.482 := by norm_num
    refine le_trans ?_ h2
    exact inv_le_inv_of_le (by norm_num) exp_1p075_lb
  have hval : (24.5 : ℝ) ≤ applyNonLinearScaling (rawScore 30 100 40 75 65)
      (calculateConsistency 30 100 40 75 65) := by
    refine le_scaling (by norm_num) ?_
    rw [hraw]
    have harg : (-0.1 : ℝ) * ((60.75 : ℝ) - 50) = -(1.075) := by norm_num
    rw [harg]
    have hpos : (0 : ℝ) < 1 + Real.exp (-(1.075 : ℝ)) := by positivity
    have hlog : (67.4 : ℝ) ≤ 100 / (1 + Real.exp (-(1.075 : ℝ))) := by
      rw [le_div_iff₀ hpos]
      nlinarith
    have := consistency_nonneg (30 : ℝ) 100 40 75 65
    nlinarith
  exact le_jround (by push_cast; linarith)

/-- Counterexample to C9 as stated: this 700 MB video descriptor (the size
penalty applies in full) nevertheless receives `aiProbability ≥ 25`, because its
AI-signature filename, its recent timestamp, its late-night weekend clock
fields, and favourable random draws outweigh the size penalty. -/
theorem claim_C9_cex :
    strStarts "video/" fileScene3.mimeType = true ∧
    fileScene3.size = 700 * 1048576 ∧
    (25 : ℤ) ≤ (analyzeFile fileScene3 1000000000000 23 0 rdraws0 0).aiProbability := by
  refine ⟨by decide, by norm_num [fileScene3], ?_⟩
  rw [analyze_aiP, meta_scene3, filename_scene3, structure_scene3, content_scene3,
    temporal_scene3]
  push_cast
  have := aiP_scene3_lb
  calc (25 : ℤ) ≤ min 100 (jround (applyNonLinearScaling (rawScore 30 100 40 75 65)
      (calculateConsistency 30 100 40 75 65))) := le_min (by norm_num) this
  _ ≤ _ := le_max_right _ _

/-- The generically named 700 MB video descriptor of the amended claim. -/
def fileScene3g (lm : ℚ) : FileDesc := ⟨"video.mp4", "video/mp4", 734003200, lm⟩

theorem ageBucket_old {a : ℚ} (h : 720 ≤ a) : ageBucket a = -10 := by
  unfold ageBucket
  split_ifs <;> first | rfl | (exfalso; linarith)

theorem filename_scene3g (lm : ℚ) : advancedFilenameAnalysis (fileScene3g lm) = 0 := by
  simp only [advancedFilenameAnalysis, fileScene3g]
  simp only [show strLower "video.mp4" = "video.mp4" from by decide]
  rw [signatureBonus_eq, patternScore_first_only]
  norm_num [show signatureMatches "video.mp4" = 0 from by decide,
    show signatureLenSum "video.mp4" = 0 from by decide,
    show (SUSPICIOUS_FILENAME_PATTERNS.any fun p => p "video.mp4".data) = false
      from by decide,
    show hasHashToken "video.mp4".data = false from by decide,
    show hasNumToken "video.mp4".data = false from by decide,
    show hasParamPattern "video.mp4".data = false from by decide,
    show genericName (stripDotExt "video.mp4".data) = true from by decide,
    show profMatch "video.mp4".data = false from by decide,
    show ("video.mp4" : String).length = 9 from by decide,
    clamp100, min_def, max_def]

theorem structure_scene3g (lm : ℚ) : fileStructureAnalysis (fileScene3g lm) = 40 := by
  simp only [fileStructureAnalysis, fileScene3g]
  norm_num [show strStarts "image/" "video/mp4" = false from by decide,
    show strStarts "video/" "video/mp4" = true from by decide,
    show extOf "video.mp4" = "mp4" from by decide,
    clamp100, min_def, max_def]

theorem meta_scene3g (now lm : ℚ) (h0 : lm ≠ 0) (hage : 2592000000 ≤ now - lm) :
    deepMetadataAnalysis (fileScene3g lm) now = 0 := by
  simp only [deepMetadataAnalysis, fileScene3g]
  rw [if_neg h0]
  have h720 : (720 : ℚ) ≤ (now - lm) / 3600000 := by
    rw [le_div_iff₀ (by norm_num : (0 : ℚ) < 3600000)]
    linarith
  rw [ageBucket_old h720]
  norm_num [metaSizeAdj, clamp100, min_def, max_def,
    show strStarts "image/" "video/mp4" = false from by decide,
    show strStarts "video/" "video/mp4" = true from by decide,
    show metaTypeAdj "video/mp4" = 15 from by decide]

theorem content_scene3g_ub (lm : ℚ) (r : RandomDraws) :
    contentPatternAnalysis (fileScene3g lm) r ≤ 75 := by
  simp only [contentPatternAnalysis, fileScene3g, simulateAdvancedVideoAnalysis,
    show strStarts "image/" "video/mp4" = false from by decide,
    show strStarts "video/" "video/mp4" = true from by decide]
  refine clamp100_le_of (by norm_num) ?_
  norm_num
  split_ifs <;> norm_num

theorem temporal_biz_ub (hour day : ℕ) (r : RandomDraws)
    (h9 : 9 ≤ hour) (h17 : hour ≤ 17) (hd1 : 1 ≤ day) (hd5 : day ≤ 5) :
    temporalAnalysis hour day r ≤ 35 := by
  unfold temporalAnalysis
  refine clamp100_le_of (by norm_num) ?_
  rw [if_neg (by omega : ¬(22 ≤ hour ∨ hour ≤ 6)), if_pos (⟨h9, h17⟩ : 9 ≤ hour ∧ hour ≤ 17),
    if_neg (by omega : ¬(day = 0 ∨ day = 6))]
  split_ifs <;> norm_num

theorem aiP_scene3g_ub (ct tp : ℝ) (hct : ct ≤ 75) (htp : tp ≤ 35) :
    jround (applyNonLinearScaling (rawScore 0 0 40 ct tp)
      (calculateConsistency 0 0 40 ct tp)) < 25 := by
  have hraw : rawScore (0 : ℝ) 0 40 ct tp ≤ 30.25 := by
    simp only [rawScore]; linarith
  have hcons : calculateConsistency (0 : ℝ) 0 40 ct tp ≤ 1 := consistency_le_one _ _ _ _ _
  have hlog := logistic_mono hraw
  have hexp : (8.2 : ℝ) ≤ 1 + Real.exp (-0.1 * ((30.25 : ℝ) - 50)) := by
    have harg : (-0.1 : ℝ) * ((30.25 : ℝ) - 50) = 1.975 := by norm_num
    rw [harg]
    have := exp_1p975_lb
    linarith
  have hpos : (0 : ℝ) < 1 + Real.exp (-0.1 * ((30.25 : ℝ) - 50)) := by positivity
  have h2 : 100 / (1 + Real.exp (-0.1 * ((30.25 : ℝ) - 50))) ≤ 12.2 := by
    rw [div_le_iff₀ hpos]
    nlinarith
  have hval : applyNonLinearScaling (rawScore 0 0 40 ct tp)
      (calculateConsistency 0 0 40 ct tp) < 24.5 := by
    unfold applyNonLinearScaling
    refine max_lt (by norm_num) (lt_of_le_of_lt (min_le_right _ _) ?_)
    linarith
  exact jround_lt (by push_cast; linarith)

/-- Claim C9 (amended): for the 700 MB video descriptor the large-size
penalties do apply — the metadata extractor is driven to its floor 0 by the
−30 bucket and the content extractor is capped at 75 by the −25 bucket — and
when the filename carries no AI signal (`video.mp4`), the nonzero timestamp is
at least one month old, and the clock fields fall on a weekday during business
hours, the returned `aiProbability` stays below 25 for every behaviour of the
random source. (As stated, with the filename, timestamp and clock fields
universally quantified, the claim is false: see the counterexample.) -/
theorem claim_C9 (now lm : ℚ) (hour day : ℕ) (r : RandomDraws) (e : ℚ)
    (h0 : lm ≠ 0) (hage : 2592000000 ≤ now - lm)
    (h9 : 9 ≤ hour) (h17 : hour ≤ 17) (hd1 : 1 ≤ day) (hd5 : day ≤ 5) :
    deepMetadataAnalysis (fileScene3g lm) now = 0 ∧
    contentPatternAnalysis (fileScene3g lm) r ≤ 75 ∧
    (analyzeFile (fileScene3g lm) now hour day r e).aiProbability < 25 := by
  have hm := meta_scene3g now lm h0 hage
  refine ⟨hm, content_scene3g_ub lm r, ?_⟩
  rw [analyze_aiP, hm, filename_scene3g, structure_scene3g]
  have hctu := content_scene3g_ub lm r
  have htpu := temporal_biz_ub hour day r h9 h17 hd1 hd5
  push_cast
  have hb := aiP_scene3g_ub ((contentPatternAnalysis (fileScene3g lm) r : ℚ) : ℝ)
    ((temporalAnalysis hour day r : ℚ) : ℝ)
    (by exact_mod_cast hctu) (by exact_mod_cast htpu)
  exact max_lt (by norm_num) (lt_of_le_of_lt (min_le_right _ _) hb)

/-- Witness for the amended C9 at concrete values. -/
theorem claim_C9_witness :
    (1000 : ℚ) ≠ 0 ∧ (2592000000 : ℚ) ≤ 1000000000000 - 1000 ∧
    9 ≤ 12 ∧ 12 ≤ 17 ∧ 1 ≤ 3 ∧ 3 ≤ 5 ∧
    (deepMetadataAnalysis (fileScene3g 1000) 1000000000000 = 0 ∧
      contentPatternAnalysis (fileScene3g 1000) rdraws9 ≤ 75 ∧
      (analyzeFile (fileScene3g 1000) 1000000000000 12 3 rdraws9 0).aiProbability < 25) :=
  ⟨by norm_num, by norm_num, by norm_num, by norm_num, by norm_num, by norm_num,
   claim_C9 1000000000000 1000 12 3 rdraws9 0 (by norm_num) (by norm_num)
     (by norm_num) (by norm_num) (by norm_num) (by norm_num)⟩
